import Mathlib

/-!
Verification of the astrbot_plugin_big_banana provider-dispatch core:
a shallow embedding of the key-rotation/retry engine (`core/base.py`),
the provider dispatcher (`main.py`), the reference-image pipeline
(`main.py` job fragment, `core/downloader.py`) and the Gemini /
Vertex-AI-Anonymous adapters (`core/gemini.py`,
`core/vertex_ai_anonymous.py`), together with theorems settling the
specification's claims about them.

Network calls are modelled by outcome oracles: a function giving, for
each (key index, attempt index) or attempt index, the canonical
`(images, status, error)` triple the Python adapter call would return.
-/

namespace BigBanana

/-- One canonical image payload `(mimeType, base64Data)`. -/
abbrev ImagePayload := String × String

/-- Python truthiness of an `Option (List α)`: `if images_result:` is
true exactly when the value is a non-empty list. -/
def truthy {α : Type} : Option (List α) → Bool
  | some (_ :: _) => true
  | _ => false

/-- Python `x or default` for an optional string: `None` and the empty
string both fall through to the default. -/
def pyOr (s : Option String) (default : String) : String :=
  match s with
  | some v => if v = "" then default else v
  | none => default

/-! ## Key-rotation / retry engine (`core/base.py`) -/

/-- `BaseProvider.RETRY_STATUS_CODES` (`core/base.py` line 30). -/
def RETRY_STATUS_CODES : List Nat := [408, 500, 502, 503, 504]

/-- `BaseProvider.NO_RETRY_STATUS_CODES` (`core/base.py` line 32). -/
def NO_RETRY_STATUS_CODES : List Nat := [401, 402, 403, 422, 429]

/-- `BaseProvider.should_retry` (`core/base.py` lines 108-111):
`status in RETRY_STATUS_CODES`; a `None` status is not a member. -/
def should_retry (status : Option Nat) : Bool :=
  match status with
  | some s => RETRY_STATUS_CODES.contains s
  | none => false

/-- `get_key_index` (`core/utils.py` lines 9-11): `(current_index + 1) % item_len`. -/
def get_key_index (current_index : Nat) (item_len : Nat) : Nat :=
  (current_index + 1) % item_len

/-- Result triple of one `_call_api` / `_call_stream_api` invocation:
`(images, status, err)`. -/
structure CallOutcome where
  images : Option (List ImagePayload)
  status : Option Nat
  err : Option String

/-- Result of the inner retry loop of `BaseProvider.generate_images`
for one key: number of attempts actually made, the successful image
list if any, and the value of the shared `err` variable afterwards. -/
structure InnerOut where
  attempts : Nat
  result : Option (List ImagePayload)
  err : Option String

/-- Inner retry loop of `BaseProvider.generate_images`
(`core/base.py` lines 79-100) for one fixed key.  `call i` is the
outcome of the `i`-th attempt with this key; `fuel` is the remaining
budget out of `max_retry`; `err` threads the enclosing `err` variable.
On a truthy result the engine returns it at once; otherwise, when
`smart_retry` is on and the status is not retryable, the loop breaks. -/
def innerGo (call : Nat → CallOutcome) (smartRetry : Bool) :
    Nat → Nat → Option String → InnerOut
  | 0, _, err => ⟨0, none, err⟩
  | fuel + 1, i, _ =>
    let o := call i
    if truthy o.images then ⟨1, o.images, o.err⟩
    else if smartRetry && !(should_retry o.status) then ⟨1, none, o.err⟩
    else
      let rest := innerGo call smartRetry fuel (i + 1) o.err
      ⟨rest.attempts + 1, rest.result, rest.err⟩

/-- Trace and final value of `BaseProvider.generate_images`. -/
structure EngineOut where
  keysTried : List Nat
  attemptsPerKey : List Nat
  result : Option (List ImagePayload) × Option String

/-- Outer key loop of `BaseProvider.generate_images` (`core/base.py`
lines 75-106).  `n` is `len(keys)`, `fuel` the remaining outer
iterations, `ci` the `current_index` before `get_key_index` advances
it, `err` the shared error variable.  `call k i` is the outcome of the
`i`-th attempt with key index `k`. -/
def outerGo (call : Nat → Nat → CallOutcome) (smartRetry : Bool)
    (maxRetry : Nat) (n : Nat) :
    Nat → Nat → Option String → EngineOut
  | 0, _, err =>
    ⟨[], [], (none, some (pyOr err "图片生成失败：所有 Key 均已用尽或不可用"))⟩
  | fuel + 1, ci, err =>
    let ci' := get_key_index ci n
    let inner := innerGo (call ci') smartRetry maxRetry 0 err
    match inner.result with
    | some imgs => ⟨[ci'], [inner.attempts], (some imgs, none)⟩
    | none =>
      let rest := outerGo call smartRetry maxRetry n fuel ci' inner.err
      ⟨ci' :: rest.keysTried, inner.attempts :: rest.attemptsPerKey, rest.result⟩

/-- `BaseProvider.generate_images` (`core/base.py` lines 62-106) over an
outcome oracle.  `r` is the value `random.randrange(key_list_len)` took;
with an empty key list the call fails fast without entering the loop. -/
def generate_images (keys : List String) (maxRetry : Nat) (smartRetry : Bool)
    (call : Nat → Nat → CallOutcome) (r : Nat) : EngineOut :=
  let n := keys.length
  if n = 0 then ⟨[], [], (none, some "图片生成失败：未配置 API Key")⟩
  else outerGo call smartRetry maxRetry n n r none

/-! ## String helpers mirroring Python primitives -/

/-- Python `str.lower()` restricted to the ASCII range used by the code. -/
def pyLower (s : String) : String := ⟨s.toList.map Char.toLower⟩

/-- Python `str.upper()` restricted to the ASCII range used by the code. -/
def pyUpper (s : String) : String := ⟨s.toList.map Char.toUpper⟩

/-- Contiguous-sublist test on character lists. -/
def isInfixB (needle : List Char) : List Char → Bool
  | [] => needle.isEmpty
  | c :: rest => needle.isPrefixOf (c :: rest) || isInfixB needle rest

/-- Python `needle in hay` on strings (substring containment). -/
def pyIn (needle hay : String) : Bool := isInfixB needle.toList hay.toList

/-! ## Gemini adapter response parsing (`core/gemini.py`, `_call_api`) -/

/-- A `part["inlineData"]` object; `data` is `none` when the `"data"`
key is absent (`core/gemini.py` line 55 checks key presence). -/
structure GeminiInlineData where
  mimeType : String
  data : Option String

/-- A response part; `inlineData` is `none` when the key is absent. -/
structure GeminiPart where
  inlineData : Option GeminiInlineData

/-- A response candidate: `finishReason` is `.get("finishReason", "")`,
`parts` is `.get("content", {}).get("parts", [])`. -/
structure GeminiCandidate where
  finishReason : String
  parts : List GeminiPart

/-- A parsed HTTP-200 Gemini JSON body.  `promptFeedbackBlockReason` is
`some br` when the `promptFeedback` dict is present and truthy
(non-empty), with `br` the optional `blockReason` value. -/
structure GeminiResponse where
  candidates : List GeminiCandidate
  promptFeedbackBlockReason : Option (Option String)

/-- Image parts collected from one candidate (`core/gemini.py` lines
54-57): a part contributes when it has `inlineData` with a `"data"`
key. -/
def geminiCollectParts (parts : List GeminiPart) : List ImagePayload :=
  parts.filterMap fun p =>
    p.inlineData.bind fun d => d.data.map fun s => (d.mimeType, s)

/-- Candidate scan of `core/gemini.py` lines 49-62: a non-`STOP`
`finishReason` aborts the whole parse with that reason; `STOP`
candidates contribute their inline image parts. -/
def geminiScan (acc : List ImagePayload) :
    List GeminiCandidate → List ImagePayload ⊕ String
  | [] => Sum.inl acc
  | c :: rest =>
    if c.finishReason = "STOP" then
      geminiScan (acc ++ geminiCollectParts c.parts) rest
    else Sum.inr c.finishReason

/-- The HTTP-200 branch of `GeminiProvider._call_api`
(`core/gemini.py` lines 47-75). -/
def gemini_parse_200 (resp : GeminiResponse) : CallOutcome :=
  match geminiScan [] resp.candidates with
  | Sum.inr reason => ⟨none, some 200, some ("图片生成失败，原因: " ++ reason)⟩
  | Sum.inl [] =>
    match resp.promptFeedbackBlockReason with
    | some br =>
      ⟨none, some 200,
        some ("请求被内容安全系统拦截，原因：" ++ br.getD "未获取到原因")⟩
    | none => ⟨none, some 200, some "响应中未包含图片数据"⟩
  | Sum.inl imgs => ⟨some imgs, some 200, none⟩

/-- The possible transport-level outcomes of one Gemini HTTP exchange:
a parsed 200 body, a parsed non-200 body with its optional
`error.message`, a timeout, a JSON decode failure (carrying the HTTP
status), or any other exception. -/
inductive GeminiHttp where
  | ok (resp : GeminiResponse)
  | errStatus (code : Nat) (errMessage : Option String)
  | timeout
  | jsonError (code : Nat)
  | exn

/-- `GeminiProvider._call_api` (`core/gemini.py` lines 16-92) as a
function of the transport outcome. -/
def gemini_call_api : GeminiHttp → CallOutcome
  | GeminiHttp.ok resp => gemini_parse_200 resp
  | GeminiHttp.errStatus code msg =>
    ⟨none, some code, some ("图片生成失败：" ++ msg.getD "未知原因")⟩
  | GeminiHttp.timeout => ⟨none, some 408, some "图片生成失败：响应超时"⟩
  | GeminiHttp.jsonError code => ⟨none, some code, some "图片生成失败：响应内容错误"⟩
  | GeminiHttp.exn => ⟨none, none, some "图片生成失败：程序错误"⟩

/-! ## Provider dispatcher (`main.py`, `BigBanana._dispatch`) -/

/-- The slice of `ProviderConfig` the dispatcher reads. -/
structure PCfg where
  api_name : String
  api_type : String

/-- `self.providers_config.get(api_name)` over an association list. -/
def lookupCfg (cfgs : List (String × PCfg)) (name : String) : Option PCfg :=
  (cfgs.find? fun p => p.1 = name).map Prod.snd

/-- The provider loop of `BigBanana._dispatch` (`main.py` lines
929-949).  `gen cfg` is the `(images, error)` pair that
`generate_images` of the matching provider instance returns; `err`
threads the shared `err` variable. -/
def dispatchLoop (cfgs : List (String × PCfg))
    (gen : PCfg → Option (List ImagePayload) × Option String) :
    List String → Option String → Option (List ImagePayload) × Option String
  | [], err => (none, err)
  | name :: rest, err =>
    match lookupCfg cfgs name with
    | none => dispatchLoop cfgs gen rest err
    | some cfg =>
      let r := gen cfg
      if truthy r.1 then (r.1, none) else dispatchLoop cfgs gen rest r.2

/-- `BigBanana._dispatch` (`main.py` lines 915-955) with the provider
list already resolved to a list of names. -/
def dispatch (cfgs : List (String × PCfg))
    (gen : PCfg → Option (List ImagePayload) × Option String)
    (activeProviders : List String) :
    Option (List ImagePayload) × Option String :=
  match dispatchLoop cfgs gen activeProviders none with
  | (none, err) =>
    if activeProviders.length = 0 then
      (none, some "当前无可用提供商，请检查插件配置。")
    else (none, err)
  | r => r

/-! ## Reference-image collection inside `BigBanana.job`
(`main.py` lines 863-898) and `Downloader.fetch_images` -/

/-- `list(dict.fromkeys(urls))`: de-duplication keeping the first
occurrence of each URL, in order. -/
def dedupGo (seen : List String) : List String → List String
  | [] => []
  | x :: xs => if x ∈ seen then dedupGo seen xs else x :: dedupGo (x :: seen) xs

/-- `list(dict.fromkeys(urls))` (`main.py` line 864). -/
def pyDedup (l : List String) : List String := dedupGo [] l

/-- `Downloader.fetch_images` (`core/downloader.py` lines 30-40):
each URL is resolved independently (the internal 3-attempt budget is
folded into the per-URL oracle `fetch`); failures are dropped and
successes kept in order. -/
def fetch_images (fetch : String → Option ImagePayload)
    (image_urls : List String) : List ImagePayload :=
  image_urls.filterMap fetch

/-- Result of the `job` fragment: whether `_dispatch` was invoked, the
reference-image list passed to it, and the `(images, error)` value the
fragment produces. -/
structure JobOut where
  dispatched : Bool
  sentImages : List ImagePayload
  result : Option (List ImagePayload) × Option String

/-- The reference-image gate of `BigBanana.job` (`main.py` lines
863-898), from the URL de-duplication up to the `_dispatch` call.
`localImages` is the `image_b64_list` already loaded from
`refer_images` files; `fetch` resolves one URL; `dispatchFn` stands
for `self._dispatch(params, image_b64_list)`. -/
def job_images (minImages maxImages : Nat) (localImages : List ImagePayload)
    (imageUrls : List String) (fetch : String → Option ImagePayload)
    (dispatchFn : List ImagePayload → Option (List ImagePayload) × Option String) :
    JobOut :=
  let urls := pyDedup imageUrls
  if localImages.length + urls.length < minImages then
    ⟨false, [],
      (none,
        some ("图片数量不足，最少需要 " ++ toString minImages ++ " 张图片，当前仅 "
          ++ toString (localImages.length + urls.length) ++ " 张"))⟩
  else
    let appendCount : Int := (maxImages : Int) - (localImages.length : Int)
    if 0 < appendCount ∧ urls ≠ [] then
      let fetched := fetch_images fetch (urls.take appendCount.toNat)
      let b64 := localImages ++ fetched
      if b64 = [] ∧ 0 < minImages then
        ⟨false, [], (none, some "全部参考图片下载失败")⟩
      else ⟨true, b64, dispatchFn b64⟩
    else ⟨true, localImages, dispatchFn localImages⟩

/-! ## Request-body builders (`core/gemini.py` `_build_gemini_context`,
`core/vertex_ai_anonymous.py` `_build_vertex_ai_body`) -/

/-- One entry of a `contents[0]["parts"]` list. -/
inductive ReqPart where
  | text (t : String)
  | inlineImage (mime : String) (dataB64 : String)
deriving DecidableEq

/-- The value held by `generationConfig["imageConfig"]`: an
aspect-ratio object, an image-size object, or the fixed Vertex default
(`imageOutputOptions` + `personGeneration`). -/
inductive ImageCfg where
  | aspect (ratio : String)
  | size (s : String)
  | vertexDefaultOptions
deriving DecidableEq

/-- Whether an `imageConfig` value carries an aspect-ratio field. -/
def hasAspect : Option ImageCfg → Bool
  | some (ImageCfg.aspect _) => true
  | _ => false

/-- The parts of `generationConfig` the claims are about.  The fixed
scalar sampling fields the Vertex body also carries (`temperature`,
`topP`, `maxOutputTokens`) never vary and are omitted. -/
structure GenerationConfig where
  responseModalities : List String
  imageConfig : Option ImageCfg
deriving DecidableEq

/-- The four fixed safety-settings entries shared by both builders. -/
def SAFETY_SETTINGS : List (String × String) :=
  [("HARM_CATEGORY_HARASSMENT", "OFF"), ("HARM_CATEGORY_HATE_SPEECH", "OFF"),
   ("HARM_CATEGORY_SEXUALLY_EXPLICIT", "OFF"),
   ("HARM_CATEGORY_DANGEROUS_CONTENT", "OFF")]

/-- The fields of `PromptConfig` (`core/data.py` lines 33-50) the
builders read as defaults. -/
structure PromptDefaults where
  aspect_ratio : String := "default"
  image_size : String := "1K"
  google_search : Bool := false

/-- The request-parameter dict keys the builders read; `none` models an
absent key (the `.get` default then applies). -/
structure Params where
  prompt : Option String := none
  aspect_ratio : Option String := none
  image_size : Option String := none
  google_search : Option Bool := none

/-- The Gemini request context built by `_build_gemini_context`. -/
structure GeminiContext where
  userParts : List ReqPart
  generationConfig : GenerationConfig
  safetySettings : List (String × String)
  googleSearchTool : Bool
deriving DecidableEq

/-- `GeminiProvider._build_gemini_context` (`core/gemini.py` lines
170-232).  Note the `gemini-3` branch overwrites
`generationConfig["imageConfig"]` wholesale. -/
def build_gemini_context (textResponse : Bool) (defaults : PromptDefaults)
    (model : String) (image_b64_list : List ImagePayload) (params : Params) :
    GeminiContext :=
  let parts := image_b64_list.map fun mb => ReqPart.inlineImage mb.1 mb.2
  let responseModalities := if textResponse then ["TEXT", "IMAGE"] else ["IMAGE"]
  let base : GeminiContext :=
    { userParts := ReqPart.text (params.prompt.getD "anything") :: parts
      generationConfig := ⟨responseModalities, none⟩
      safetySettings := SAFETY_SETTINGS
      googleSearchTool := false }
  let aspect := params.aspect_ratio.getD defaults.aspect_ratio
  let c1 :=
    if aspect ≠ "default" then
      { base with generationConfig := ⟨base.generationConfig.responseModalities,
          some (ImageCfg.aspect aspect)⟩ }
    else base
  if pyIn "gemini-3" (pyLower model) then
    let c2 :=
      if params.google_search.getD defaults.google_search then
        { c1 with googleSearchTool := true }
      else c1
    { c2 with generationConfig := ⟨c2.generationConfig.responseModalities,
        some (ImageCfg.size (params.image_size.getD defaults.image_size))⟩ }
  else c1

/-- The `variables` object of the Vertex request body.
`recaptchaToken` is written by `generate_images` before every attempt. -/
structure VertexContext where
  model : String
  userParts : List ReqPart
  generationConfig : GenerationConfig
  safetySettings : List (String × String)
  region : String
  systemInstruction : Option String
  googleSearchTool : Bool
  recaptchaToken : Option String
deriving DecidableEq

/-- `VertexAIAnonymousProvider._build_vertex_ai_body`
(`core/vertex_ai_anonymous.py` lines 158-239), reduced to its
`variables` object (the surrounding body only adds the two constant
`querySignature` / `operationName` fields). -/
def build_vertex_ai_body (textResponse : Bool) (defaults : PromptDefaults)
    (systemPrompt : Option String) (model : String) (prompt : String)
    (image_b64_list : List ImagePayload) (params : Params) : VertexContext :=
  let parts := image_b64_list.map fun mb => ReqPart.inlineImage mb.1 mb.2
  let responseModalities := if textResponse then ["TEXT", "IMAGE"] else ["IMAGE"]
  let base : VertexContext :=
    { model := model
      userParts := ReqPart.text prompt :: parts
      generationConfig := ⟨responseModalities, some ImageCfg.vertexDefaultOptions⟩
      safetySettings := SAFETY_SETTINGS
      region := "global"
      systemInstruction := none
      googleSearchTool := false
      recaptchaToken := none }
  let aspect := params.aspect_ratio.getD defaults.aspect_ratio
  let c1 :=
    if aspect ≠ "default" then
      { base with generationConfig := ⟨base.generationConfig.responseModalities,
          some (ImageCfg.aspect aspect)⟩ }
    else base
  let c2 :=
    match systemPrompt with
    | some sp => if sp = "" then c1 else { c1 with systemInstruction := some sp }
    | none => c1
  if pyIn "gemini-3" (pyLower model) then
    let c3 :=
      if params.google_search.getD defaults.google_search then
        { c2 with googleSearchTool := true }
      else c2
    { c3 with generationConfig := ⟨c3.generationConfig.responseModalities,
        some (ImageCfg.size (params.image_size.getD defaults.image_size))⟩ }
  else c2

/-! ## Vertex-Anonymous retry loop (`core/vertex_ai_anonymous.py`,
`generate_images`) -/

/-- Trace and final value of `VertexAIAnonymousProvider.generate_images`:
the `recaptchaToken` carried by each generation attempt's body in
order, the number of `_get_recaptcha_token` exchanges performed, and
the returned `(images, error)` pair. -/
structure VertexRun where
  tokensUsed : List String
  exchanges : Nat
  result : Option (List ImagePayload) × Option String
deriving DecidableEq

/-- The retry loop of `VertexAIAnonymousProvider.generate_images`
(`core/vertex_ai_anonymous.py` lines 55-73).  `tokenOracle e` is the
result of the `e`-th `_get_recaptcha_token` call (`none` when its 3
internal tries all fail); `callOracle a` the outcome of the `a`-th
generation attempt; `fuel` the remaining budget out of the adapter's
own `max_retry`; `tok` the current token; `errMsg` threads `err_msg`. -/
def vertexLoop (tokenOracle : Nat → Option String)
    (callOracle : Nat → CallOutcome) :
    Nat → Nat → Nat → String → Option String → VertexRun
  | 0, _, e, _, errMsg =>
    ⟨[], e, (none, some (pyOr errMsg "图片生成失败：重试达到上限。"))⟩
  | fuel + 1, a, e, tok, _ =>
    let o := callOracle a
    match o.images with
    | some imgs => ⟨[tok], e, (some imgs, none)⟩
    | none =>
      if o.status = some 3 then
        match tokenOracle e with
        | none => ⟨[tok], e + 1, (none, some "获取 recaptcha_token 失败")⟩
        | some t1 =>
          let rest := vertexLoop tokenOracle callOracle fuel (a + 1) (e + 1) t1 o.err
          ⟨tok :: rest.tokensUsed, rest.exchanges, rest.result⟩
      else if o.status = some 999 then ⟨[tok], e, (none, o.err)⟩
      else
        let rest := vertexLoop tokenOracle callOracle fuel (a + 1) e tok o.err
        ⟨tok :: rest.tokensUsed, rest.exchanges, rest.result⟩

/-- `VertexAIAnonymousProvider.generate_images`
(`core/vertex_ai_anonymous.py` lines 42-73): one initial token
exchange, then up to `max_retry` generation attempts, with a fresh
exchange after a status-3 (token expired) failure and an immediate
abort on status 999. -/
def vertex_generate_images (maxRetry : Nat)
    (tokenOracle : Nat → Option String) (callOracle : Nat → CallOutcome) :
    VertexRun :=
  match tokenOracle 0 with
  | none => ⟨[], 1, (none, some "获取 recaptcha_token 失败")⟩
  | some t0 => vertexLoop tokenOracle callOracle maxRetry 0 1 t0 none

/-! ## Vertex-Anonymous response parsing
(`core/vertex_ai_anonymous.py`, `_call_api`) -/

/-- A Vertex `inlineData` object; the collection test is Python
truthiness of `.get("data")`, so `data` must be present and non-empty. -/
structure VrInlineData where
  mimeType : String
  data : Option String

/-- A Vertex response part. -/
structure VrPart where
  inlineData : Option VrInlineData

/-- Whether a part passes `"inlineData" in part and
part["inlineData"].get("data")` (`core/vertex_ai_anonymous.py` line 118). -/
def vrPartHasData (p : VrPart) : Bool :=
  match p.inlineData with
  | some d => match d.data with
    | some s => !(s = "")
    | none => false
  | none => false

/-- A Vertex response candidate. -/
structure VrCand where
  finishReason : String
  parts : List VrPart

/-- One entry of an item's `errors` list: `statusCode` is
`extensions.status.code`, `message` is `.get("message", "")`. -/
structure VrError where
  statusCode : Option Nat
  message : String

/-- One entry of an element's `results` list. -/
structure VrItem where
  errors : List VrError
  candidates : List VrCand

/-- One element of the parsed 200 response array. -/
structure VrElem where
  results : List VrItem

/-- Image parts collected from one Vertex candidate
(`core/vertex_ai_anonymous.py` lines 116-124). -/
def vertexCollectParts (parts : List VrPart) : List ImagePayload :=
  parts.filterMap fun p =>
    if vrPartHasData p then
      p.inlineData.bind fun d => d.data.map fun s => (d.mimeType, s)
    else none

/-- Intermediate state of the Vertex 200-body scan: either the images
collected so far, or an early-returned `(status, message)` failure. -/
inductive VScan where
  | done (imgs : List ImagePayload)
  | fail (status : Option Nat) (msg : String)

/-- Candidate loop (`core/vertex_ai_anonymous.py` lines 112-129): a
non-`STOP` `finishReason` returns `(999, reason)` immediately. -/
def vertexScanC (acc : List ImagePayload) : List VrCand → VScan
  | [] => VScan.done acc
  | c :: rest =>
    if c.finishReason = "STOP" then
      vertexScanC (acc ++ vertexCollectParts c.parts) rest
    else VScan.fail (some 999) ("图片生成失败，原因: " ++ c.finishReason)

/-- Item loop (`core/vertex_ai_anonymous.py` lines 97-129): the first
structured error of an item returns its extension status code and
message immediately. -/
def vertexScanI (acc : List ImagePayload) : List VrItem → VScan
  | [] => VScan.done acc
  | it :: rest =>
    match it.errors with
    | e :: _ => VScan.fail e.statusCode e.message
    | [] =>
      match vertexScanC acc it.candidates with
      | VScan.done acc1 => vertexScanI acc1 rest
      | f => f

/-- Element loop (`core/vertex_ai_anonymous.py` lines 95-129). -/
def vertexScanE (acc : List ImagePayload) : List VrElem → VScan
  | [] => VScan.done acc
  | el :: rest =>
    match vertexScanI acc el.results with
    | VScan.done acc1 => vertexScanE acc1 rest
    | f => f

/-- The HTTP-200 branch of `VertexAIAnonymousProvider._call_api`
(`core/vertex_ai_anonymous.py` lines 92-136): a clean parse with zero
collected images is assigned the sentinel status 999. -/
def vertex_parse_200 (elems : List VrElem) : CallOutcome :=
  match vertexScanE [] elems with
  | VScan.fail st msg => ⟨none, st, some msg⟩
  | VScan.done [] => ⟨none, some 999, some "响应中未包含图片数据"⟩
  | VScan.done imgs => ⟨some imgs, none, none⟩

/-- Transport-level outcomes of one Vertex HTTP exchange. -/
inductive VertexHttp where
  | ok (elems : List VrElem)
  | errStatus (code : Nat)
  | timeout
  | jsonError
  | exn

/-- `VertexAIAnonymousProvider._call_api`
(`core/vertex_ai_anonymous.py` lines 75-156) as a function of the
transport outcome. -/
def vertex_call_api : VertexHttp → CallOutcome
  | VertexHttp.ok elems => vertex_parse_200 elems
  | VertexHttp.errStatus code =>
    ⟨none, none, some ("图片生成失败：状态码: " ++ toString code)⟩
  | VertexHttp.timeout => ⟨none, none, some "图片生成失败：响应超时"⟩
  | VertexHttp.jsonError => ⟨none, none, some "图片生成失败：响应内容格式错误"⟩
  | VertexHttp.exn => ⟨none, none, some "图片生成失败：程序错误"⟩

/-! ## Image normalization (`core/downloader.py`, `_handle_image`)

The PIL operations are abstracted: `decode` stands for
`Image.open(BytesIO(bytes))` together with format sniffing (`none`
when opening raises), and `encodeFirstFramePNG` stands for
`seek(0); convert("RGBA"); save(buf, format="PNG")` — the PNG bytes of
the first frame converted to RGBA. -/

/-- The facts about a PIL-decoded image the code reads: its sniffed
container format (`(img.format or "")`) and its frame count. -/
structure DecodedImage where
  format : String
  frames : Nat

/-- `Downloader._handle_image` (`core/downloader.py` lines 42-66),
parameterized by the abstract decode/re-encode/base64 primitives.
Bytes are modelled as `List Nat`. -/
def handle_image (decode : List Nat → Option DecodedImage)
    (encodeFirstFramePNG : DecodedImage → List Nat)
    (b64encode : List Nat → String)
    (image_bytes : List Nat) : Option ImagePayload :=
  if image_bytes.length > 36 * 1024 * 1024 then none
  else
    match decode image_bytes with
    | some img =>
      let fmt := pyUpper img.format
      if fmt ≠ "GIF" then some ("image/" ++ pyLower fmt, b64encode image_bytes)
      else some ("image/png", b64encode (encodeFirstFramePNG img))
    | none => some ("image/gif", b64encode image_bytes)

/-! ## Engine lemmas -/

/-- When every attempt with the key fails, the inner loop never
produces a result and makes at most `fuel` attempts. -/
lemma innerGo_fail (call : Nat → CallOutcome) (sr : Bool)
    (h : ∀ i, truthy (call i).images = false) :
    ∀ fuel i err, (innerGo call sr fuel i err).result = none ∧
      (innerGo call sr fuel i err).attempts ≤ fuel := by
  intro fuel
  induction fuel with
  | zero => intro i err; simp [innerGo]
  | succ n ih =>
    intro i err
    simp only [innerGo, h i, if_false, Bool.false_eq_true]
    by_cases hb : (sr && !should_retry (call i).status) = true
    · simp only [hb, if_true]
      constructor
      · simp
      · omega
    · simp only [Bool.not_eq_true] at hb
      simp only [hb, Bool.false_eq_true, if_false]
      refine ⟨(ih (i + 1) (call i).err).1, ?_⟩
      have := (ih (i + 1) (call i).err).2
      omega

/-- When every attempt with every key fails, the outer loop visits the
keys `(ci+1) % n, (ci+2) % n, …` in order, one inner loop of at most
`maxRetry` attempts each. -/
lemma outerGo_fail (call : Nat → Nat → CallOutcome) (sr : Bool) (mr n : Nat)
    (h : ∀ k i, truthy (call k i).images = false) :
    ∀ fuel ci err,
      (outerGo call sr mr n fuel ci err).keysTried
        = (List.range fuel).map (fun j => (ci + 1 + j) % n) ∧
      (outerGo call sr mr n fuel ci err).attemptsPerKey.length = fuel ∧
      ∀ a ∈ (outerGo call sr mr n fuel ci err).attemptsPerKey, a ≤ mr := by
  intro fuel
  induction fuel with
  | zero => intro ci err; simp [outerGo]
  | succ f ih =>
    intro ci err
    have hinner := innerGo_fail (call (get_key_index ci n)) sr (h _) mr 0 err
    simp only [outerGo, hinner.1]
    obtain ⟨ht, hl, ha⟩ := ih (get_key_index ci n) _
    refine ⟨?_, by simpa using hl, ?_⟩
    · rw [List.range_succ_eq_map, List.map_cons, List.map_map, ht]
      refine congrArg₂ List.cons (by simp [get_key_index]) ?_
      refine List.map_congr_left fun j _ => ?_
      show (get_key_index ci n + 1 + j) % n = (ci + 1 + (j + 1)) % n
      rw [get_key_index, Nat.add_assoc, Nat.mod_add_mod, ← Nat.add_assoc]
      congr 1
      omega
    · intro a hm
      rcases List.mem_cons.mp hm with rfl | hm
      · exact hinner.2
      · exact ha a hm

/-- C1: with a non-empty key list of length `N`, a starting offset
`r < N` and no successful call, `generate_images` iterates its outer
loop exactly `N` times, trying the key indices
`(r+1) % N, (r+2) % N, …` — each of the `N` indices exactly once — and
makes at most `max_retry` inner attempts per key. -/
theorem generate_images_key_rotation (keys : List String) (maxRetry : Nat)
    (smartRetry : Bool) (call : Nat → Nat → CallOutcome) (r : Nat)
    (hr : r < keys.length)
    (hfail : ∀ k i, truthy (call k i).images = false) :
    (generate_images keys maxRetry smartRetry call r).keysTried
      = (List.range keys.length).map (fun j => (r + 1 + j) % keys.length) ∧
    (generate_images keys maxRetry smartRetry call r).keysTried.length
      = keys.length ∧
    (∀ m, m < keys.length →
      (generate_images keys maxRetry smartRetry call r).keysTried.count m = 1) ∧
    ∀ a ∈ (generate_images keys maxRetry smartRetry call r).attemptsPerKey,
      a ≤ maxRetry := by
  have hn : keys.length ≠ 0 := by omega
  have hpos : 0 < keys.length := by omega
  simp only [generate_images, hn, if_false]
  obtain ⟨ht, hl, ha⟩ := outerGo_fail call smartRetry maxRetry keys.length hfail
    keys.length r none
  have hlen : ((List.range keys.length).map
      (fun j => (r + 1 + j) % keys.length)).length = keys.length := by simp
  have hnodup : ((List.range keys.length).map
      (fun j => (r + 1 + j) % keys.length)).Nodup := by
    refine List.Nodup.map_on ?_ (List.nodup_range _)
    intro x hx y hy hxy
    simp only [List.mem_range] at hx hy
    have hmx : x % keys.length = x := Nat.mod_eq_of_lt hx
    have hmy : y % keys.length = y := Nat.mod_eq_of_lt hy
    have hc : Nat.ModEq keys.length x y :=
      Nat.ModEq.add_left_cancel' (r + 1) hxy
    calc x = x % keys.length := hmx.symm
      _ = y % keys.length := hc
      _ = y := hmy
  have hmem : ∀ m, m < keys.length →
      m ∈ (List.range keys.length).map (fun j => (r + 1 + j) % keys.length) := by
    intro m hm
    have hs : (r + 1) % keys.length < keys.length := Nat.mod_lt _ hpos
    refine List.mem_map.mpr
      ⟨(m + keys.length - (r + 1) % keys.length) % keys.length, ?_, ?_⟩
    · exact List.mem_range.mpr (Nat.mod_lt _ hpos)
    · rw [← Nat.mod_add_mod, Nat.add_mod_mod]
      have : (r + 1) % keys.length + (m + keys.length - (r + 1) % keys.length)
          = m + keys.length := by omega
      rw [this, Nat.add_mod_right]
      exact Nat.mod_eq_of_lt hm
  refine ⟨ht, by rw [ht, hlen], ?_, ha⟩
  intro m hm
  rw [ht]
  exact List.count_eq_one_of_mem hnodup (hmem m hm)

/-- Witness for C1 at a concrete instance: three keys, offset 1, an
oracle that always fails with HTTP 500; key index 0 is visited exactly
once. -/
theorem generate_images_key_rotation_witness :
    1 < (["a", "b", "c"] : List String).length ∧
    (generate_images ["a", "b", "c"] 2 true
      (fun _ _ => ⟨none, some 500, some "e"⟩) 1).keysTried.count 0 = 1 :=
  ⟨by decide,
    (generate_images_key_rotation ["a", "b", "c"] 2 true
      (fun _ _ => ⟨none, some 500, some "e"⟩) 1 (by decide)
      (fun _ _ => rfl)).2.2.1 0 (by decide)⟩

/-- With smart retry on, a first attempt that fails with a
non-retryable status ends the inner loop after exactly one attempt. -/
lemma innerGo_break_one (call : Nat → CallOutcome)
    (h0 : truthy (call 0).images = false)
    (hs : should_retry (call 0).status = false) :
    ∀ fuel, 1 ≤ fuel → ∀ err,
      innerGo call true fuel 0 err = ⟨1, none, (call 0).err⟩ := by
  intro fuel hf err
  obtain ⟨f, rfl⟩ : ∃ f, fuel = f + 1 := ⟨fuel - 1, by omega⟩
  simp [innerGo, h0, hs]

/-- With smart retry off, failing attempts consume the whole budget. -/
lemma innerGo_exhaust (call : Nat → CallOutcome)
    (h : ∀ i, truthy (call i).images = false) :
    ∀ fuel i err, (innerGo call false fuel i err).attempts = fuel ∧
      (innerGo call false fuel i err).result = none := by
  intro fuel
  induction fuel with
  | zero => intro i err; simp [innerGo]
  | succ n ih =>
    intro i err
    simp only [innerGo, h i, Bool.false_eq_true, if_false, Bool.false_and]
    exact ⟨by rw [(ih (i + 1) (call i).err).1], (ih (i + 1) (call i).err).2⟩

/-- When the inner loop of every key makes exactly `c` attempts and
fails, the outer loop records `c` attempts for each of its `fuel`
iterations. -/
lemma outerGo_attempts (call : Nat → Nat → CallOutcome) (sr : Bool)
    (mr n c : Nat)
    (h : ∀ k err, (innerGo (call k) sr mr 0 err).result = none ∧
      (innerGo (call k) sr mr 0 err).attempts = c) :
    ∀ fuel ci err,
      (outerGo call sr mr n fuel ci err).attemptsPerKey
        = List.replicate fuel c ∧
      (outerGo call sr mr n fuel ci err).keysTried.length = fuel := by
  intro fuel
  induction fuel with
  | zero => intro ci err; simp [outerGo]
  | succ f ih =>
    intro ci err
    simp only [outerGo, (h (get_key_index ci n) err).1]
    obtain ⟨ha, hl⟩ := ih (get_key_index ci n) _
    refine ⟨?_, by simpa using hl⟩
    rw [List.replicate_succ, ha, (h (get_key_index ci n) err).2]

/-- Every status in the non-retryable set fails `should_retry`. -/
lemma no_retry_not_retryable :
    ∀ s ∈ NO_RETRY_STATUS_CODES, should_retry (some s) = false := by decide

/-- C5: with smart retry enabled and every key failing its first
attempt with a status in the non-retryable set
`{401, 402, 403, 422, 429}`, the inner loop of `generate_images` ends
after exactly 1 attempt for every key (not `max_retry`), and control
advances through all the keys. -/
theorem smart_retry_short_circuit (keys : List String) (maxRetry : Nat)
    (call : Nat → Nat → CallOutcome) (r : Nat)
    (hr : r < keys.length) (hmr : 1 ≤ maxRetry)
    (hfail : ∀ k, truthy (call k 0).images = false)
    (hnr : ∀ k, ∃ s ∈ NO_RETRY_STATUS_CODES, (call k 0).status = some s) :
    (generate_images keys maxRetry true call r).attemptsPerKey
      = List.replicate keys.length 1 ∧
    (generate_images keys maxRetry true call r).keysTried.length
      = keys.length := by
  have hn : keys.length ≠ 0 := by omega
  simp only [generate_images, hn, if_false]
  refine outerGo_attempts call true maxRetry keys.length 1 ?_ keys.length r none
  intro k err
  obtain ⟨s, hsmem, hs⟩ := hnr k
  have hbreak := innerGo_break_one (call k) (hfail k)
    (by rw [hs]; exact no_retry_not_retryable s hsmem) maxRetry hmr err
  rw [hbreak]
  exact ⟨rfl, rfl⟩

/-- Witness for C5 at a concrete instance: two keys, retry budget 3,
every call failing with HTTP 401. -/
theorem smart_retry_short_circuit_witness :
    0 < (["a", "b"] : List String).length ∧
    (generate_images ["a", "b"] 3 true
      (fun _ _ => ⟨none, some 401, some "unauthorized"⟩) 0).attemptsPerKey
      = List.replicate 2 1 :=
  ⟨by decide,
    (smart_retry_short_circuit ["a", "b"] 3
      (fun _ _ => ⟨none, some 401, some "unauthorized"⟩) 0 (by decide)
      (by decide) (fun _ => rfl)
      (fun _ => ⟨401, by decide, rfl⟩)).1⟩

/-- The HTTP-200 branch of the Gemini parser always carries the HTTP
status 200 as its signal. -/
lemma gemini_parse_200_status (resp : GeminiResponse) :
    (gemini_parse_200 resp).status = some 200 := by
  unfold gemini_parse_200
  rcases geminiScan [] resp.candidates with imgs | reason
  · rcases imgs with _ | ⟨p, rest⟩
    · rcases resp.promptFeedbackBlockReason with _ | br <;> rfl
    · rfl
  · rfl

/-- C4 counterexample: an HTTP 200 Gemini response that parses cleanly
with zero images yields the outcome `(None, 200, …)`, and the engine
with the default policy (smart retry enabled) and retry budget 3 makes
exactly 1 attempt with the key — it does not perform further
inner-loop attempts. -/
theorem gemini_soft_200_counterexample :
    gemini_call_api (GeminiHttp.ok ⟨[], none⟩)
      = ⟨none, some 200, some "响应中未包含图片数据"⟩ ∧
    (generate_images ["k"] 3 true
      (fun _ _ => gemini_call_api (GeminiHttp.ok ⟨[], none⟩)) 0).attemptsPerKey
      = [1] := by
  constructor
  · rfl
  · rfl

/-- C4 amended: an HTTP 200 response that parses cleanly but yields
zero images is a soft failure carrying status signal 200, but 200 is
not in the retryable status set, so under the default policy
(smart retry enabled) the engine abandons the key after exactly 1
attempt; only with smart retry disabled does it consume the full
`max_retry` budget with that key. -/
theorem gemini_soft_200_smart_retry (keys : List String) (maxRetry : Nat)
    (resp : GeminiResponse) (r : Nat)
    (hr : r < keys.length) (hmr : 1 ≤ maxRetry)
    (himg : (gemini_parse_200 resp).images = none) :
    should_retry (some 200) = false ∧
    (generate_images keys maxRetry true
      (fun _ _ => gemini_parse_200 resp) r).attemptsPerKey
      = List.replicate keys.length 1 ∧
    (generate_images keys maxRetry false
      (fun _ _ => gemini_parse_200 resp) r).attemptsPerKey
      = List.replicate keys.length maxRetry := by
  have hn : keys.length ≠ 0 := by omega
  have hfail : truthy (gemini_parse_200 resp).images = false := by
    rw [himg]; rfl
  refine ⟨by decide, ?_, ?_⟩
  · simp only [generate_images, hn, if_false]
    refine (outerGo_attempts _ true maxRetry keys.length 1 ?_ keys.length r none).1
    intro k err
    have hbreak := innerGo_break_one (fun _ => gemini_parse_200 resp) hfail
      (by rw [gemini_parse_200_status]; decide) maxRetry hmr err
    rw [hbreak]
    exact ⟨rfl, rfl⟩
  · simp only [generate_images, hn, if_false]
    refine (outerGo_attempts _ false maxRetry keys.length maxRetry ?_
      keys.length r none).1
    intro k err
    exact ⟨(innerGo_exhaust _ (fun _ => hfail) maxRetry 0 err).2,
      (innerGo_exhaust _ (fun _ => hfail) maxRetry 0 err).1⟩

/-- Witness for the amended C4 at a concrete instance: one key, retry
budget 3, the empty-candidate 200 response. -/
theorem gemini_soft_200_smart_retry_witness :
    0 < (["k"] : List String).length ∧
    (generate_images ["k"] 3 true
      (fun _ _ => gemini_parse_200 ⟨[], none⟩) 0).attemptsPerKey
      = List.replicate 1 1 ∧
    (generate_images ["k"] 3 false
      (fun _ _ => gemini_parse_200 ⟨[], none⟩) 0).attemptsPerKey
      = List.replicate 1 3 :=
  ⟨by decide,
    (gemini_soft_200_smart_retry ["k"] 3 ⟨[], none⟩ 0 (by decide) (by decide)
      rfl).2.1,
    (gemini_soft_200_smart_retry ["k"] 3 ⟨[], none⟩ 0 (by decide) (by decide)
      rfl).2.2⟩

/-! ## Dispatcher lemmas -/

/-- A truthy optional list is a non-empty `some`. -/
lemma truthy_some_ne_nil {α : Type} (l : List α) (h : truthy (some l) = true) :
    l ≠ [] := by
  cases l with
  | nil => simp [truthy] at h
  | cons a rest => simp

/-- Reduction of the provider loop at a name with no matching
configuration. -/
lemma dispatchLoop_cons_none (cfgs : List (String × PCfg))
    (gen : PCfg → Option (List ImagePayload) × Option String)
    (name : String) (rest : List String) (err : Option String)
    (hl : lookupCfg cfgs name = none) :
    dispatchLoop cfgs gen (name :: rest) err = dispatchLoop cfgs gen rest err := by
  rw [dispatchLoop, hl]

/-- Reduction of the provider loop at a name with a matching
configuration. -/
lemma dispatchLoop_cons_some (cfgs : List (String × PCfg))
    (gen : PCfg → Option (List ImagePayload) × Option String)
    (name : String) (rest : List String) (err : Option String) (cfg : PCfg)
    (hl : lookupCfg cfgs name = some cfg) :
    dispatchLoop cfgs gen (name :: rest) err =
      if truthy (gen cfg).1 then ((gen cfg).1, none)
      else dispatchLoop cfgs gen rest (gen cfg).2 := by
  rw [dispatchLoop, hl]

/-- If the provider loop produces images, they are non-empty and the
returned error slot is `none`. -/
lemma dispatchLoop_some (cfgs : List (String × PCfg))
    (gen : PCfg → Option (List ImagePayload) × Option String) :
    ∀ names err imgs, (dispatchLoop cfgs gen names err).1 = some imgs →
      imgs ≠ [] ∧ (dispatchLoop cfgs gen names err).2 = none := by
  intro names
  induction names with
  | nil => intro err imgs h; simp [dispatchLoop] at h
  | cons name rest ih =>
    intro err imgs h
    rcases hl : lookupCfg cfgs name with _ | cfg
    · rw [dispatchLoop_cons_none cfgs gen name rest err hl] at h ⊢
      exact ih err imgs h
    · rw [dispatchLoop_cons_some cfgs gen name rest err cfg hl] at h ⊢
      by_cases hg : truthy (gen cfg).1 = true
      · simp only [hg, if_true] at h ⊢
        refine ⟨?_, trivial⟩
        rw [h] at hg
        exact truthy_some_ne_nil imgs hg
      · simp only [Bool.not_eq_true] at hg
        simp only [hg, Bool.false_eq_true, if_false] at h ⊢
        exact ih _ imgs h

/-- If the provider loop produces no images, then either some call
left an error behind, or no name in the list matched a configuration
and the incoming error value is returned untouched. -/
lemma dispatchLoop_none (cfgs : List (String × PCfg))
    (gen : PCfg → Option (List ImagePayload) × Option String)
    (hgen : ∀ cfg, truthy (gen cfg).1 = false → (gen cfg).2.isSome) :
    ∀ names err, (dispatchLoop cfgs gen names err).1 = none →
      (dispatchLoop cfgs gen names err).2.isSome ∨
        ((dispatchLoop cfgs gen names err).2 = err ∧
          ∀ name ∈ names, lookupCfg cfgs name = none) := by
  intro names
  induction names with
  | nil => intro err _; right; exact ⟨rfl, by simp⟩
  | cons name rest ih =>
    intro err h
    rcases hl : lookupCfg cfgs name with _ | cfg
    · rw [dispatchLoop_cons_none cfgs gen name rest err hl] at h ⊢
      rcases ih err h with hs | ⟨he, hrest⟩
      · exact Or.inl hs
      · refine Or.inr ⟨he, ?_⟩
        intro n hn
        rcases List.mem_cons.mp hn with rfl | hn
        · exact hl
        · exact hrest n hn
    · rw [dispatchLoop_cons_some cfgs gen name rest err cfg hl] at h ⊢
      by_cases hg : truthy (gen cfg).1 = true
      · simp only [hg, if_true] at h
        rw [h] at hg
        simp [truthy] at hg
      · simp only [Bool.not_eq_true] at hg
        simp only [hg, Bool.false_eq_true, if_false] at h ⊢
        rcases ih _ h with hs | ⟨he, _⟩
        · exact Or.inl hs
        · rw [he]
          exact Or.inl (hgen cfg hg)

/-- C2 counterexample: with a non-empty provider-name list in which no
name matches a configured provider, `_dispatch` returns
`(None, None)` — images empty and no error string. -/
theorem dispatch_counterexample :
    dispatch [] (fun _ => (none, some "x")) ["unknown"] = (none, none) := rfl

/-- C2 amended: whenever every failing provider call leaves an error
string behind (as the real providers do), the dispatcher's returned
pair is never both populated, and an images-empty result carries an
error string — except in the one remaining case of a non-empty
provider-name list in which no name matches any configured provider,
where `_dispatch` returns `(None, None)`. -/
theorem dispatch_amended (cfgs : List (String × PCfg))
    (gen : PCfg → Option (List ImagePayload) × Option String)
    (names : List String)
    (hgen : ∀ cfg, truthy (gen cfg).1 = false → (gen cfg).2.isSome) :
    (∀ imgs, (dispatch cfgs gen names).1 = some imgs →
      imgs ≠ [] ∧ (dispatch cfgs gen names).2 = none) ∧
    ((dispatch cfgs gen names).1 = none →
      (dispatch cfgs gen names).2.isSome ∨
        (names ≠ [] ∧ ∀ name ∈ names, lookupCfg cfgs name = none)) := by
  unfold dispatch
  rcases hres : dispatchLoop cfgs gen names none with ⟨o, e⟩
  rcases o with _ | imgs
  · rcases hlen : names.length with _ | n
    · constructor
      · intro imgs h; simp at h
      · intro _; left; rfl
    · have hne : ¬names.length = 0 := by omega
      simp only [hlen] at hne ⊢
      simp only [Nat.succ_ne_zero, if_false]
      constructor
      · intro imgs h; simp at h
      · intro _
        have h0 := dispatchLoop_none cfgs gen hgen names none
        rw [hres] at h0
        rcases h0 rfl with hs | ⟨he, hall⟩
        · exact Or.inl hs
        · right
          refine ⟨?_, hall⟩
          intro hnil
          rw [hnil] at hlen
          simp at hlen
  · have h0 := dispatchLoop_some cfgs gen names none imgs
    rw [hres] at h0
    obtain ⟨hne, he⟩ := h0 rfl
    subst he
    constructor
    · intro imgs2 h
      have : imgs = imgs2 := by simpa using h
      subst this
      exact ⟨hne, rfl⟩
    · intro h; simp at h

/-- Witness for the amended C2 at a concrete instance: one configured
provider whose generator fails with an error string. -/
theorem dispatch_amended_witness :
    (dispatch [("p", PCfg.mk "p" "Gemini")]
      (fun _ => (none, some "fail")) ["p"]).2.isSome := by
  have h := (dispatch_amended [("p", PCfg.mk "p" "Gemini")]
    (fun _ => (none, some "fail")) ["p"] (fun _ _ => rfl)).2 rfl
  rcases h with hs | ⟨_, hall⟩
  · exact hs
  · have := hall "p" (by simp)
    simp [lookupCfg] at this

/-! ## Reference-image gate -/

/-- C3 counterexample: with `min_images = 2`, two reference URLs of
which one download fails, exactly 1 image is resolved — below the
minimum — yet `job` proceeds to call `_dispatch` with that single
image instead of failing fast. -/
theorem job_min_images_counterexample :
    (job_images 2 6 [] ["a", "b"]
      (fun u => if u = "a" then some ("image/png", "X") else none)
      (fun _ => (none, some "generr"))).dispatched = true ∧
    (job_images 2 6 [] ["a", "b"]
      (fun u => if u = "a" then some ("image/png", "X") else none)
      (fun _ => (none, some "generr"))).sentImages.length = 1 := by
  constructor
  · rfl
  · rfl

/-- C3 amended: the below-minimum check runs before the downloads,
against the count of de-duplicated URLs plus locally loaded images;
after the downloads the dispatch is skipped only when no image at all
was resolved (and the minimum is positive).  Whenever at least one
image resolves, the generation call is issued even if the resolved
count is below the configured minimum.  Both fail-fast paths return no
images and a descriptive error message. -/
theorem job_images_gate (minImages maxImages : Nat)
    (localImages : List ImagePayload) (imageUrls : List String)
    (fetch : String → Option ImagePayload)
    (dispatchFn : List ImagePayload → Option (List ImagePayload) × Option String) :
    ((job_images minImages maxImages localImages imageUrls fetch
        dispatchFn).dispatched = false ↔
      (localImages.length + (pyDedup imageUrls).length < minImages ∨
        (minImages ≤ localImages.length + (pyDedup imageUrls).length ∧
          0 < (maxImages : Int) - (localImages.length : Int) ∧
          pyDedup imageUrls ≠ [] ∧
          localImages ++ fetch_images fetch ((pyDedup imageUrls).take
            ((maxImages : Int) - (localImages.length : Int)).toNat) = [] ∧
          0 < minImages))) ∧
    ((job_images minImages maxImages localImages imageUrls fetch
        dispatchFn).dispatched = false →
      (job_images minImages maxImages localImages imageUrls fetch
        dispatchFn).result.1 = none ∧
      (job_images minImages maxImages localImages imageUrls fetch
        dispatchFn).result.2.isSome) := by
  unfold job_images
  by_cases h1 : localImages.length + (pyDedup imageUrls).length < minImages
  · rw [if_pos h1]
    exact ⟨⟨fun _ => Or.inl h1, fun _ => rfl⟩, fun _ => ⟨rfl, rfl⟩⟩
  · rw [if_neg h1]
    by_cases h2 : 0 < (maxImages : Int) - (localImages.length : Int) ∧
        pyDedup imageUrls ≠ []
    · rw [if_pos h2]
      by_cases h3 : localImages ++ fetch_images fetch ((pyDedup imageUrls).take
          ((maxImages : Int) - (localImages.length : Int)).toNat) = [] ∧
          0 < minImages
      · rw [if_pos h3]
        exact ⟨⟨fun _ => Or.inr ⟨by omega, h2.1, h2.2, h3.1, h3.2⟩,
          fun _ => rfl⟩, fun _ => ⟨rfl, rfl⟩⟩
      · rw [if_neg h3]
        refine ⟨⟨fun hfalse => absurd hfalse (by simp), fun hrhs => ?_⟩,
          fun hfalse => absurd hfalse (by simp)⟩
        rcases hrhs with hlt | ⟨_, _, _, hc, hd⟩
        · exact absurd hlt h1
        · exact absurd ⟨hc, hd⟩ h3
    · rw [if_neg h2]
      refine ⟨⟨fun hfalse => absurd hfalse (by simp), fun hrhs => ?_⟩,
        fun hfalse => absurd hfalse (by simp)⟩
      rcases hrhs with hlt | ⟨_, ha, hb, _, _⟩
      · exact absurd hlt h1
      · exact absurd ⟨ha, hb⟩ h2

/-- Witness for the amended C3 at a concrete instance: both downloads
fail with `min_images = 2`, so the dispatch is skipped with an error. -/
theorem job_images_gate_witness :
    (job_images 2 6 [] ["a", "b"] (fun _ => none)
      (fun _ => (none, none))).result.2.isSome :=
  ((job_images_gate 2 6 [] ["a", "b"] (fun _ => none)
    (fun _ => (none, none))).2 (by decide)).2

/-! ## Request-builder aspect-ratio behaviour -/

/-- C6 counterexample: with model `gemini-3-pro-image-preview` and the
non-default aspect ratio `16:9`, neither builder's generation config
carries an aspect-ratio field — the `gemini-3` branch overwrites
`imageConfig` with the image-size object. -/
theorem build_aspect_counterexample :
    hasAspect (build_gemini_context false {} "gemini-3-pro-image-preview" []
      { aspect_ratio := some "16:9" }).generationConfig.imageConfig = false ∧
    (build_gemini_context false {} "gemini-3-pro-image-preview" []
      { aspect_ratio := some "16:9" }).generationConfig.imageConfig
      = some (ImageCfg.size "1K") ∧
    hasAspect (build_vertex_ai_body false {} none "gemini-3-pro-image-preview"
      "p" [] { aspect_ratio := some "16:9" }).generationConfig.imageConfig
      = false ∧
    ("16:9" : String) ≠ "default" := by
  refine ⟨by decide, by decide, by decide, by decide⟩

/-- C6 amended: in both builders the generation config carries an
aspect-ratio field iff the resolved aspect ratio differs from the
sentinel `"default"` AND the lower-cased model name does not contain
`"gemini-3"`; for `gemini-3` models the aspect-ratio entry is
overwritten by the image-size entry. -/
theorem build_aspect_iff (textResponse : Bool) (defaults : PromptDefaults)
    (systemPrompt : Option String) (model prompt : String)
    (imgs : List ImagePayload) (params : Params) :
    (hasAspect (build_gemini_context textResponse defaults model imgs
        params).generationConfig.imageConfig = true ↔
      (params.aspect_ratio.getD defaults.aspect_ratio ≠ "default" ∧
        pyIn "gemini-3" (pyLower model) = false)) ∧
    (hasAspect (build_vertex_ai_body textResponse defaults systemPrompt model
        prompt imgs params).generationConfig.imageConfig = true ↔
      (params.aspect_ratio.getD defaults.aspect_ratio ≠ "default" ∧
        pyIn "gemini-3" (pyLower model) = false)) := by
  constructor
  · unfold build_gemini_context
    by_cases ha : params.aspect_ratio.getD defaults.aspect_ratio = "default" <;>
      by_cases hg : pyIn "gemini-3" (pyLower model) = true <;>
        simp [ha, hg, hasAspect]
  · unfold build_vertex_ai_body
    rcases systemPrompt with _ | sp
    · by_cases ha : params.aspect_ratio.getD defaults.aspect_ratio = "default" <;>
        by_cases hg : pyIn "gemini-3" (pyLower model) = true <;>
          simp [ha, hg, hasAspect]
    · by_cases ha : params.aspect_ratio.getD defaults.aspect_ratio = "default" <;>
        by_cases hg : pyIn "gemini-3" (pyLower model) = true <;>
          by_cases hsp : sp = "" <;>
            simp [ha, hg, hsp, hasAspect]

/-! ## Vertex-Anonymous retry-loop lemmas -/

/-- After a prefix of plain failures (neither token-expired nor
content-blocked), an attempt carrying status 999 makes the Vertex loop
return that attempt's error immediately: the token is never refreshed
and no further attempt happens, whatever fuel remains. -/
lemma vertexLoop_abort_999 (tokenOracle : Nat → Option String)
    (callOracle : Nat → CallOutcome) :
    ∀ j fuel a e tok errMsg, j < fuel →
      (∀ i, i < j → (callOracle (a + i)).images = none ∧
        (callOracle (a + i)).status ≠ some 3 ∧
        (callOracle (a + i)).status ≠ some 999) →
      (callOracle (a + j)).images = none →
      (callOracle (a + j)).status = some 999 →
      vertexLoop tokenOracle callOracle fuel a e tok errMsg
        = ⟨List.replicate (j + 1) tok, e, (none, (callOracle (a + j)).err)⟩ := by
  intro j
  induction j with
  | zero =>
    intro fuel a e tok errMsg hf hpre hi hs
    obtain ⟨f, rfl⟩ : ∃ f, fuel = f + 1 := ⟨fuel - 1, by omega⟩
    rw [Nat.add_zero] at hi hs
    simp only [vertexLoop, hi, hs]
    norm_num
  | succ j ih =>
    intro fuel a e tok errMsg hf hpre hi hs
    obtain ⟨f, rfl⟩ : ∃ f, fuel = f + 1 := ⟨fuel - 1, by omega⟩
    obtain ⟨h0i, h03, h09⟩ := hpre 0 (by omega)
    rw [Nat.add_zero] at h0i h03 h09
    have hrec := ih f (a + 1) e tok (callOracle a).err (by omega)
      (fun i hij => by
        have := hpre (i + 1) (by omega)
        rwa [show a + (i + 1) = a + 1 + i by omega] at this)
      (by rwa [show a + 1 + j = a + (j + 1) by omega])
      (by rwa [show a + 1 + j = a + (j + 1) by omega])
    simp only [vertexLoop, h0i, h03, h09, if_false, hrec]
    rw [show a + 1 + j = a + (j + 1) by omega]
    simp [List.replicate_succ]

/-- C7: when the `j`-th Vertex generation attempt signals a content
block (status 999) after `j` plain failures, `generate_images` returns
that block's message immediately: exactly `j+1` attempts happen, only
the one initial reCAPTCHA exchange is performed, and the remaining
retry budget is ignored. -/
theorem vertex_content_block_abort (maxRetry j : Nat)
    (tokenOracle : Nat → Option String) (callOracle : Nat → CallOutcome)
    (t0 : String) (msg : String)
    (ht : tokenOracle 0 = some t0) (hj : j < maxRetry)
    (hpre : ∀ i, i < j → (callOracle i).images = none ∧
      (callOracle i).status ≠ some 3 ∧ (callOracle i).status ≠ some 999)
    (hi : (callOracle j).images = none)
    (hs : (callOracle j).status = some 999)
    (he : (callOracle j).err = some msg) :
    vertex_generate_images maxRetry tokenOracle callOracle
      = ⟨List.replicate (j + 1) t0, 1, (none, some msg)⟩ := by
  unfold vertex_generate_images
  simp only [ht]
  have h0 := vertexLoop_abort_999 tokenOracle callOracle j maxRetry 0 1 t0 none
    hj (fun i hij => by simpa using hpre i hij) (by simpa using hi)
    (by simpa using hs)
  rw [h0]
  simp only [Nat.zero_add] at *
  rw [he]

/-- Witness for C7 at a concrete instance: budget 10, the first attempt
already content-blocked. -/
theorem vertex_content_block_abort_witness :
    vertex_generate_images 10 (fun _ => some "T")
      (fun _ => ⟨none, some 999, some "blocked"⟩)
      = ⟨["T"], 1, (none, some "blocked")⟩ :=
  vertex_content_block_abort 10 0 (fun _ => some "T")
    (fun _ => ⟨none, some 999, some "blocked"⟩) "T" "blocked" rfl
    (by omega) (fun i hij => absurd hij (by omega)) rfl rfl rfl

/-- C8: with attempt outcomes `[token-expired (status 3), success]`,
the Vertex engine performs exactly one additional reCAPTCHA exchange
between the two attempts (two exchanges in total), and the second
attempt's body carries the newly obtained token. -/
theorem vertex_token_refresh (maxRetry : Nat)
    (tokenOracle : Nat → Option String) (callOracle : Nat → CallOutcome)
    (t0 t1 : String) (imgs : List ImagePayload) (e0 : Option String)
    (st : Option Nat) (er : Option String)
    (hmr : 2 ≤ maxRetry)
    (h0 : tokenOracle 0 = some t0) (h1 : tokenOracle 1 = some t1)
    (hc0 : callOracle 0 = ⟨none, some 3, e0⟩)
    (hc1 : callOracle 1 = ⟨some imgs, st, er⟩) :
    vertex_generate_images maxRetry tokenOracle callOracle
      = ⟨[t0, t1], 2, (some imgs, none)⟩ := by
  obtain ⟨m, rfl⟩ : ∃ m, maxRetry = m + 2 := ⟨maxRetry - 2, by omega⟩
  unfold vertex_generate_images
  rw [h0]
  show vertexLoop tokenOracle callOracle (m + 1 + 1) 0 1 t0 none = _
  simp only [vertexLoop, hc0, hc1, h1]
  norm_num

/-- Witness for C8 at a concrete instance. -/
theorem vertex_token_refresh_witness :
    vertex_generate_images 10
      (fun e => if e = 0 then some "T0" else some "T1")
      (fun a => if a = 0 then ⟨none, some 3, some "expired"⟩
        else ⟨some [("image/png", "D")], none, none⟩)
      = ⟨["T0", "T1"], 2, (some [("image/png", "D")], none)⟩ :=
  vertex_token_refresh 10
    (fun e => if e = 0 then some "T0" else some "T1")
    (fun a => if a = 0 then ⟨none, some 3, some "expired"⟩
      else ⟨some [("image/png", "D")], none, none⟩)
    "T0" "T1" [("image/png", "D")] (some "expired") none none
    (by omega) rfl rfl rfl rfl

/-! ## Vertex 200-with-no-image parsing -/

/-- A candidate list of `STOP` candidates whose parts carry no truthy
data contributes nothing to the scan. -/
lemma vertexScanC_nodata (cands : List VrCand)
    (h : ∀ c ∈ cands, c.finishReason = "STOP" ∧
      ∀ p ∈ c.parts, vrPartHasData p = false) :
    ∀ acc, vertexScanC acc cands = VScan.done acc := by
  induction cands with
  | nil => intro acc; rfl
  | cons c rest ih =>
    intro acc
    obtain ⟨hstop, hparts⟩ := h c (by simp)
    have hempty : vertexCollectParts c.parts = [] := by
      refine List.filterMap_eq_nil_iff.mpr ?_
      intro p hp
      rw [hparts p hp]
      rfl
    simp only [vertexScanC, hstop, if_true, hempty, List.append_nil]
    exact ih (fun x hx => h x (by simp [hx])) acc

/-- Items with no structured errors and only dataless `STOP`
candidates contribute nothing to the scan. -/
lemma vertexScanI_nodata (items : List VrItem)
    (h : ∀ it ∈ items, it.errors = [] ∧ ∀ c ∈ it.candidates,
      c.finishReason = "STOP" ∧ ∀ p ∈ c.parts, vrPartHasData p = false) :
    ∀ acc, vertexScanI acc items = VScan.done acc := by
  induction items with
  | nil => intro acc; rfl
  | cons it rest ih =>
    intro acc
    obtain ⟨herr, hcand⟩ := h it (by simp)
    simp only [vertexScanI, herr, vertexScanC_nodata it.candidates hcand acc]
    exact ih (fun x hx => h x (by simp [hx])) acc

/-- Elements built only of error-free, dataless `STOP` items
contribute nothing to the scan. -/
lemma vertexScanE_nodata (elems : List VrElem)
    (h : ∀ el ∈ elems, ∀ it ∈ el.results, it.errors = [] ∧
      ∀ c ∈ it.candidates, c.finishReason = "STOP" ∧
        ∀ p ∈ c.parts, vrPartHasData p = false) :
    ∀ acc, vertexScanE acc elems = VScan.done acc := by
  induction elems with
  | nil => intro acc; rfl
  | cons el rest ih =>
    intro acc
    simp only [vertexScanE,
      vertexScanI_nodata el.results (h el (by simp)) acc]
    exact ih (fun x hx => h x (by simp [hx])) acc

/-- C10: an HTTP 200 Vertex response that parses cleanly, carries no
structured error envelope and contains no truthy image data is
assigned the sentinel status 999 with message `响应中未包含图片数据`;
consequently `generate_images` aborts after a single attempt with that
message, ignoring the remaining retry budget. -/
theorem vertex_empty_200_aborts (maxRetry : Nat)
    (tokenOracle : Nat → Option String) (t0 : String) (elems : List VrElem)
    (hmr : 1 ≤ maxRetry) (ht : tokenOracle 0 = some t0)
    (h : ∀ el ∈ elems, ∀ it ∈ el.results, it.errors = [] ∧
      ∀ c ∈ it.candidates, c.finishReason = "STOP" ∧
        ∀ p ∈ c.parts, vrPartHasData p = false) :
    vertex_call_api (VertexHttp.ok elems)
      = ⟨none, some 999, some "响应中未包含图片数据"⟩ ∧
    vertex_generate_images maxRetry tokenOracle
      (fun _ => vertex_call_api (VertexHttp.ok elems))
      = ⟨[t0], 1, (none, some "响应中未包含图片数据")⟩ := by
  have hparse : vertex_call_api (VertexHttp.ok elems)
      = ⟨none, some 999, some "响应中未包含图片数据"⟩ := by
    show vertex_parse_200 elems = _
    unfold vertex_parse_200
    rw [vertexScanE_nodata elems h []]
  refine ⟨hparse, ?_⟩
  unfold vertex_generate_images
  rw [ht]
  obtain ⟨f, rfl⟩ : ∃ f, maxRetry = f + 1 := ⟨maxRetry - 1, by omega⟩
  simp only [vertexLoop, hparse]
  norm_num

/-- Witness for C10 at a concrete instance: an empty result array. -/
theorem vertex_empty_200_aborts_witness :
    vertex_call_api (VertexHttp.ok [])
      = ⟨none, some 999, some "响应中未包含图片数据"⟩ ∧
    vertex_generate_images 5 (fun _ => some "T")
      (fun _ => vertex_call_api (VertexHttp.ok []))
      = ⟨["T"], 1, (none, some "响应中未包含图片数据")⟩ :=
  vertex_empty_200_aborts 5 (fun _ => some "T") "T" [] (by omega) rfl
    (by simp)

/-! ## Image normalization -/

/-- C9: for byte payloads of at most 36 MiB that decode, a multi-frame
GIF yields exactly one payload with mime `image/png` holding the
base64 of the first frame converted to RGBA and re-encoded as PNG
(`encodeFirstFramePNG`), and a JPEG yields the original bytes
base64-encoded unchanged with mime `image/jpeg`. -/
theorem handle_image_normalization (decode : List Nat → Option DecodedImage)
    (encodeFirstFramePNG : DecodedImage → List Nat)
    (b64encode : List Nat → String)
    (image_bytes : List Nat) (img : DecodedImage)
    (hsize : image_bytes.length ≤ 36 * 1024 * 1024)
    (hdec : decode image_bytes = some img) :
    (img.format = "GIF" → 2 ≤ img.frames →
      handle_image decode encodeFirstFramePNG b64encode image_bytes
        = some ("image/png", b64encode (encodeFirstFramePNG img))) ∧
    (img.format = "JPEG" →
      handle_image decode encodeFirstFramePNG b64encode image_bytes
        = some ("image/jpeg", b64encode image_bytes)) := by
  have hgt : ¬image_bytes.length > 36 * 1024 * 1024 := by omega
  constructor
  · intro hfmt _
    unfold handle_image
    rw [if_neg hgt]
    simp only [hdec, hfmt]
    rw [show pyUpper "GIF" = "GIF" from by decide]
    simp
  · intro hfmt
    unfold handle_image
    rw [if_neg hgt]
    simp only [hdec, hfmt]
    rw [show pyUpper "JPEG" = "JPEG" from by decide,
      if_pos (by decide : ("JPEG" : String) ≠ "GIF"),
      show pyLower "JPEG" = "jpeg" from by decide,
      show ("image/" ++ "jpeg" : String) = "image/jpeg" from by decide]

/-- Witness for C9 at concrete instances: a two-frame decoded GIF and a
decoded JPEG, with trivial abstract encoders. -/
theorem handle_image_normalization_witness :
    handle_image (fun _ => some ⟨"GIF", 2⟩) (fun _ => [9]) (fun b =>
      if b = [9] then "PNGB64" else "RAWB64") [0]
      = some ("image/png", "PNGB64") ∧
    handle_image (fun _ => some ⟨"JPEG", 1⟩) (fun _ => [9]) (fun b =>
      if b = [9] then "PNGB64" else "RAWB64") [0]
      = some ("image/jpeg", "RAWB64") :=
  ⟨(handle_image_normalization (fun _ => some ⟨"GIF", 2⟩) (fun _ => [9])
      (fun b => if b = [9] then "PNGB64" else "RAWB64") [0] ⟨"GIF", 2⟩
      (by norm_num) rfl).1 rfl (by norm_num),
    (handle_image_normalization (fun _ => some ⟨"JPEG", 1⟩) (fun _ => [9])
      (fun b => if b = [9] then "PNGB64" else "RAWB64") [0] ⟨"JPEG", 1⟩
      (by norm_num) rfl).2 rfl⟩

end BigBanana
